import Mathlib

/-!
Shallow embedding of the mix-proportioning engine of
src/new_concrete_mix.py (class MixDesignCalculator, lines 165-209).
Machine floats are modelled as exact rationals; the Python builtin
round(x, 1) is modelled as rounding to one decimal with ties to even.
-/

namespace ConcreteMix

/-- Input record of MixDesignCalculator: the thirteen entries of the
source dictionary input_params (src/new_concrete_mix.py, lines 214-228),
numeric fields as exact rationals. The form widget ranges (lines 95-111)
are preconditions of the caller, not enforced by the calculator. -/
structure MixParams where
  use_slump_for_water : Bool
  slump : ℚ
  w_c_ratio : ℚ
  cement_sg : ℚ
  water_sg : ℚ
  admixture_pct : ℚ
  fa_ratio : ℚ
  fa_sg : ℚ
  fa_abs : ℚ
  ca_sg : ℚ
  ca_abs : ℚ
  moisture_content : ℚ
  ca_ratio : ℚ
deriving DecidableEq

/-- Nearest integer with ties to even: the rounding rule of the Python
builtin round. -/
def halfEven (q : ℚ) : ℤ :=
  if q - (⌊q⌋ : ℚ) < 1/2 then ⌊q⌋
  else if (1 : ℚ)/2 < q - (⌊q⌋ : ℚ) then ⌊q⌋ + 1
  else if ⌊q⌋ % 2 = 0 then ⌊q⌋ else ⌊q⌋ + 1

/-- Python round(x, 1): one decimal place, ties to even. -/
def round1 (q : ℚ) : ℚ := (halfEven (10 * q) : ℚ) / 10

/-- MixDesignCalculator.estimate_water_content (lines 170-173):
185 unless use_slump_for_water, else 130 + (slump - 25) * 0.8 clamped
into the interval from 130 to 210. -/
def estimate_water_content (p : MixParams) : ℚ :=
  if p.use_slump_for_water then
    max 130 (min 210 (130 + (p.slump - 25) * (8/10)))
  else 185

/-- MixDesignCalculator.calculate_cement_content (lines 175-176). -/
def calculate_cement_content (p : MixParams) (water_content : ℚ) : ℚ :=
  water_content / p.w_c_ratio

/-- MixDesignCalculator.calculate_admixture_dose (lines 178-179). -/
def calculate_admixture_dose (p : MixParams) (cement_content : ℚ) : ℚ :=
  cement_content * p.admixture_pct / 100

/-- MixDesignCalculator.calculate_aggregate_volumes (lines 181-185):
the remaining aggregate volume 1 - (cement_vol + water_vol +
admixture_vol).  The source has no air term and performs no sign check
on the result. -/
def calculate_aggregate_volumes (p : MixParams) (cement water admixture : ℚ) : ℚ :=
  1 - (cement / (p.cement_sg * 1000) + water / (p.water_sg * 1000)
    + admixture / ((21/20) * 1000))

/-- Pair of fine and coarse aggregate masses returned by
calculate_aggregate_masses. -/
structure AggMasses where
  fa : ℚ
  ca : ℚ
deriving DecidableEq

/-- MixDesignCalculator.calculate_aggregate_masses (lines 187-194):
SSD masses from the fixed volume ratios, then the moisture factor
1 + (moisture_content - absorption) / 100 on each, rounded to one
decimal.  The batch water is not touched here. -/
def calculate_aggregate_masses (p : MixParams) (total_agg_vol : ℚ) : AggMasses :=
  let fa_mass_ssd := p.fa_ratio * total_agg_vol * p.fa_sg * 1000
  let ca_mass_ssd := p.ca_ratio * total_agg_vol * p.ca_sg * 1000
  let fa_correction := 1 + (p.moisture_content - p.fa_abs) / 100
  let ca_correction := 1 + (p.moisture_content - p.ca_abs) / 100
  ⟨round1 (fa_mass_ssd * fa_correction), round1 (ca_mass_ssd * ca_correction)⟩

/-- Output record of MixDesignCalculator.calculate: the five entries of
the source result dictionary (lines 202-208).  The source result holds
nothing else: in particular no warning list and no error indication. -/
structure MixResult where
  water : ℚ
  cement : ℚ
  fine_aggregate : ℚ
  coarse_aggregate : ℚ
  admixture : ℚ
deriving DecidableEq

/-- Intermediate water of calculate (line 197). -/
def water_of (p : MixParams) : ℚ := round1 (estimate_water_content p)

/-- Intermediate cement of calculate (line 198). -/
def cement_of (p : MixParams) : ℚ :=
  round1 (calculate_cement_content p (water_of p))

/-- Intermediate admixture of calculate (line 199). -/
def admixture_of (p : MixParams) : ℚ :=
  round1 (calculate_admixture_dose p (cement_of p))

/-- Intermediate total_agg_vol of calculate (line 200). -/
def total_agg_vol_of (p : MixParams) : ℚ :=
  calculate_aggregate_volumes p (cement_of p) (water_of p) (admixture_of p)

/-- MixDesignCalculator.calculate (lines 196-209), composed exactly as
the source sequence of locals. -/
def calculate (p : MixParams) : MixResult :=
  let m := calculate_aggregate_masses p (total_agg_vol_of p)
  { water := water_of p
    cement := cement_of p
    fine_aggregate := m.fa
    coarse_aggregate := m.ca
    admixture := admixture_of p }

/-- Warnings produced by a run of the calculation: the source builds no
warning list anywhere in MixDesignCalculator (the result dictionary of
lines 202-208 holds exactly the five quantities), so this is constantly
empty. -/
def calculate_warnings (_ : MixParams) : List String := []

/-- Absolute cement volume of the run, as in line 182. -/
def cement_vol_of (p : MixParams) : ℚ := cement_of p / (p.cement_sg * 1000)

/-- Absolute water volume of the run, as in line 183. -/
def water_vol_of (p : MixParams) : ℚ := water_of p / (p.water_sg * 1000)

/-- Absolute admixture volume of the run, as in line 184. -/
def admixture_vol_of (p : MixParams) : ℚ := admixture_of p / ((21/20) * 1000)

/-- Fine-aggregate absolute volume before moisture correction:
fa_mass_ssd / (fa_sg * 1000) = fa_ratio * total_agg_vol (line 188). -/
def fa_vol_of (p : MixParams) : ℚ := p.fa_ratio * total_agg_vol_of p

/-- Coarse-aggregate absolute volume before moisture correction (line 189). -/
def ca_vol_of (p : MixParams) : ℚ := p.ca_ratio * total_agg_vol_of p

/-- SSD fine-aggregate mass of line 188, before moisture correction. -/
def fa_ssd_of (p : MixParams) : ℚ := p.fa_ratio * total_agg_vol_of p * p.fa_sg * 1000

/-- SSD coarse-aggregate mass of line 189, before moisture correction. -/
def ca_ssd_of (p : MixParams) : ℚ := p.ca_ratio * total_agg_vol_of p * p.ca_sg * 1000

/-- Default parameter values of the source form widgets (lines 95-111). -/
def p0 : MixParams :=
  { use_slump_for_water := false
    slump := 75
    w_c_ratio := 1/2
    cement_sg := 63/20
    water_sg := 1
    admixture_pct := 0
    fa_ratio := 7/20
    fa_sg := 53/20
    fa_abs := 1
    ca_sg := 53/20
    ca_abs := 1/2
    moisture_content := 2
    ca_ratio := 13/20 }

/-- Parameter record with the slump replaced. -/
def withSlump (p : MixParams) (s : ℚ) : MixParams := { p with slump := s }

/-- Parameter record with the moisture content replaced. -/
def withMoisture (p : MixParams) (m : ℚ) : MixParams := { p with moisture_content := m }

/-- Parameter record with the admixture percentage replaced. -/
def withAdmixture (p : MixParams) (a : ℚ) : MixParams := { p with admixture_pct := a }

/-- Modelled from the spec: the Moderate exposure-class limits of the
ExposureLimits table (spec sections 3 and 8: maximum w/cm 0.50).  The
source calculator has no exposure-class input and no such table. -/
def spec_max_w_cm_moderate : ℚ := 1/2

/-- Modelled from the spec: the Moderate exposure-class minimum cement
content, 300 kg per cubic meter (spec section 8 scenario).  The source
calculator has no exposure-class input and applies no cement floor. -/
def spec_min_cement_moderate : ℚ := 300

lemma halfEven_le (q : ℚ) : (halfEven q : ℚ) ≤ q + 1/2 := by
  have h0 : (⌊q⌋ : ℚ) ≤ q := Int.floor_le q
  unfold halfEven
  split_ifs with h1 h2 h3
  · linarith
  · push_cast
    linarith
  · linarith
  · push_neg at h1 h2
    push_cast
    linarith

lemma le_halfEven (q : ℚ) : q - 1/2 ≤ (halfEven q : ℚ) := by
  have h0 : q < (⌊q⌋ : ℚ) + 1 := Int.lt_floor_add_one q
  unfold halfEven
  split_ifs with h1 h2 h3
  · linarith
  · push_cast
    linarith
  · push_neg at h1 h2
    linarith
  · push_cast
    linarith

lemma halfEven_nonneg {q : ℚ} (h : 0 ≤ q) : 0 ≤ halfEven q := by
  have h0 : 0 ≤ ⌊q⌋ := Int.floor_nonneg.2 h
  unfold halfEven
  split_ifs <;> omega

lemma halfEven_nonpos {q : ℚ} (h : q ≤ 0) : halfEven q ≤ 0 := by
  have h0 : ⌊q⌋ ≤ 0 := Int.floor_nonpos h
  unfold halfEven
  split_ifs with h1 h2 h3
  · exact h0
  · push_neg at h1
    have hneg : (⌊q⌋ : ℚ) ≤ -(1/2) := by linarith
    have : (⌊q⌋ : ℚ) < 0 := by linarith
    have : ⌊q⌋ < 0 := by exact_mod_cast this
    omega
  · exact h0
  · push_neg at h1
    have hneg : (⌊q⌋ : ℚ) ≤ -(1/2) := by linarith
    have : (⌊q⌋ : ℚ) < 0 := by linarith
    have : ⌊q⌋ < 0 := by exact_mod_cast this
    omega

lemma round1_le (q : ℚ) : round1 q ≤ q + 1/20 := by
  have h := halfEven_le (10 * q)
  unfold round1
  linarith

lemma le_round1 (q : ℚ) : q - 1/20 ≤ round1 q := by
  have h := le_halfEven (10 * q)
  unfold round1
  linarith

lemma round1_nonneg {q : ℚ} (h : 0 ≤ q) : 0 ≤ round1 q := by
  have h0 : 0 ≤ halfEven (10 * q) := halfEven_nonneg (by linarith)
  have h1 : (0 : ℚ) ≤ (halfEven (10 * q) : ℚ) := by exact_mod_cast h0
  unfold round1
  linarith

lemma round1_neg {q : ℚ} (h : q ≤ -(1/10)) : round1 q < 0 := by
  have h0 := round1_le q
  linarith

lemma estimate_water_lb (p : MixParams) : 130 ≤ estimate_water_content p := by
  unfold estimate_water_content
  split_ifs
  · exact le_max_left _ _
  · norm_num

lemma estimate_water_ub (p : MixParams) : estimate_water_content p ≤ 210 := by
  unfold estimate_water_content
  split_ifs
  · exact max_le (by norm_num) (min_le_left _ _)
  · norm_num

lemma calculate_water (p : MixParams) : (calculate p).water = water_of p := rfl

lemma calculate_cement (p : MixParams) : (calculate p).cement = cement_of p := rfl

lemma calculate_admixture (p : MixParams) :
    (calculate p).admixture = admixture_of p := rfl

lemma calculate_fa (p : MixParams) :
    (calculate p).fine_aggregate =
      round1 (fa_ssd_of p * (1 + (p.moisture_content - p.fa_abs) / 100)) := rfl

lemma calculate_ca (p : MixParams) :
    (calculate p).coarse_aggregate =
      round1 (ca_ssd_of p * (1 + (p.moisture_content - p.ca_abs) / 100)) := rfl

/-- Valid form input with the fine and coarse volume ratios at 0.2 and
0.3, whose volumes do not close to one cubic meter. -/
def p1 : MixParams := { p0 with fa_ratio := 1/5, ca_ratio := 3/10 }

/-- Input with an extreme water-cement ratio 0.05, exhausting the unit
volume (cement 3700 kg alone occupies more than one cubic meter). -/
def p2 : MixParams := { p0 with w_c_ratio := 1/20 }

/-- Input with slump-based water at the minimum slump 25 mm: water 130,
cement 260, below the Moderate durability floor of the spec. -/
def p3 : MixParams := { p0 with use_slump_for_water := true, slump := 25 }

/-- Default input with slump-based water estimation turned on. -/
def p4 : MixParams := { p0 with use_slump_for_water := true }

/-- Default input with water-cement ratio 0.6, above the Moderate
maximum w/cm 0.50 of the spec. -/
def p6 : MixParams := { p0 with w_c_ratio := 3/5 }

/-- Default input with admixture_pct 3. -/
def p7 : MixParams := { p0 with admixture_pct := 3 }

/-- C3, counterexample: at p3 the computed cement content is
water / w_c_ratio = 260, strictly below the spec Moderate durability
floor 300, and differs from the floored value the claim prescribes.
The source applies no maximum with a minimum cement content. -/
theorem C3_counterexample :
    (calculate p3).cement = 260 ∧
    (calculate p3).cement < spec_min_cement_moderate ∧
    (calculate p3).cement ≠
      max ((calculate p3).water / p3.w_c_ratio) spec_min_cement_moderate := by
  norm_num [calculate_water, calculate_cement, cement_of, water_of,
    estimate_water_content, calculate_cement_content, round1, halfEven,
    spec_min_cement_moderate, p3, p0, max_def, min_def]

/-- C3, amended: the cement content returned is round1 of
water / w_c_ratio with no durability floor applied (the source
calculator has no exposure-class input at all). -/
theorem C3_cement_no_floor (p : MixParams) :
    (calculate p).cement = round1 ((calculate p).water / p.w_c_ratio) := rfl

/-- C4, counterexample: with slump-based water on, the slope around the
reference is 0.8 per mm (not 0.3), the value is clamped at 210 (not
unclamped, hence not strictly increasing: slump 140 and 200 agree), and
with the flag off water is the constant 185 at every slump. -/
theorem C4_counterexample :
    estimate_water_content (withSlump p4 75) = 170 ∧
    estimate_water_content (withSlump p4 76) = 170 + 8/10 ∧
    estimate_water_content (withSlump p4 76) -
      estimate_water_content (withSlump p4 75) ≠ 3/10 ∧
    estimate_water_content (withSlump p4 140) = 210 ∧
    estimate_water_content (withSlump p4 200) = 210 ∧
    estimate_water_content p0 = 185 ∧
    estimate_water_content (withSlump p0 200) = 185 := by
  norm_num [estimate_water_content, withSlump, p4, p0, max_def, min_def]

/-- C4, amended: when use_slump_for_water is on, the water estimate is
strictly increasing in slump with slope 0.8 kg per cubic meter per mm
around the 25 mm reference, on the unclamped slump interval from 25 to
125 mm; beyond it the estimate is clamped (and with the flag off it is
the constant 185). -/
theorem C4_water_slump (p : MixParams) (s t : ℚ)
    (hu : p.use_slump_for_water = true)
    (hs : 25 ≤ s) (hst : s < t) (ht : t ≤ 125) :
    estimate_water_content (withSlump p s) < estimate_water_content (withSlump p t) ∧
    estimate_water_content (withSlump p t) -
      estimate_water_content (withSlump p s) = (t - s) * (8/10) := by
  have hes : estimate_water_content (withSlump p s) = 130 + (s - 25) * (8/10) := by
    simp only [estimate_water_content, withSlump, hu, if_true]
    rw [min_eq_right (by linarith), max_eq_right (by linarith)]
  have het : estimate_water_content (withSlump p t) = 130 + (t - 25) * (8/10) := by
    simp only [estimate_water_content, withSlump, hu, if_true]
    rw [min_eq_right (by linarith), max_eq_right (by linarith)]
  constructor
  · rw [hes, het]
    linarith
  · rw [hes, het]
    ring

/-- C4, witness at p4 with slumps 75 and 100. -/
theorem C4_water_slump_witness :
    estimate_water_content (withSlump p4 75) < estimate_water_content (withSlump p4 100) ∧
    estimate_water_content (withSlump p4 100) -
      estimate_water_content (withSlump p4 75) = (100 - 75) * (8/10) :=
  C4_water_slump p4 75 100 rfl (by norm_num) (by norm_num) (by norm_num)

/-- C5, counterexample: at the default input the free moisture the SSD
aggregate masses contribute is positive, yet the returned water is the
uncorrected 185: the source never reduces the batch water, and has no
NegativeWaterError. -/
theorem C5_counterexample :
    (calculate p0).water = 185 ∧
    0 < fa_ssd_of p0 * (p0.moisture_content / 100) +
      ca_ssd_of p0 * (p0.moisture_content / 100) ∧
    (calculate p0).water ≠
      185 - (fa_ssd_of p0 * (p0.moisture_content / 100) +
        ca_ssd_of p0 * (p0.moisture_content / 100)) := by
  norm_num [calculate_water, water_of, estimate_water_content, fa_ssd_of,
    ca_ssd_of, total_agg_vol_of, calculate_aggregate_volumes, cement_of,
    admixture_of, calculate_cement_content, calculate_admixture_dose,
    round1, halfEven, p0]

/-- C5, amended: the moisture correction touches only the aggregate
masses, each SSD mass scaled by 1 + (moisture - absorption) / 100; the
returned water is independent of the moisture content and is never
reduced, so no negative-water failure can arise. -/
theorem C5_no_water_adjustment (p : MixParams) (m : ℚ) :
    (calculate (withMoisture p m)).water = (calculate p).water ∧
    (calculate p).fine_aggregate =
      round1 (fa_ssd_of p * (1 + (p.moisture_content - p.fa_abs) / 100)) ∧
    (calculate p).coarse_aggregate =
      round1 (ca_ssd_of p * (1 + (p.moisture_content - p.ca_abs) / 100)) :=
  ⟨rfl, rfl, rfl⟩

/-- C6, counterexample: at w/c = 0.6, above the spec Moderate maximum
0.50, the run still produces no warning at all, so the advisory is not
present exactly when the ratio exceeds the limit. -/
theorem C6_counterexample :
    ¬(("w/c exceeds max for exposure class" ∈ calculate_warnings p6) ↔
      spec_max_w_cm_moderate < p6.w_c_ratio) := by
  norm_num [calculate_warnings, spec_max_w_cm_moderate, p6, p0]

/-- C6, amended: the calculation produces no warnings for any input,
even one whose w/c ratio exceeds the spec Moderate maximum; the
out-of-range ratio is still used downstream, unclamped, as the divisor
of the cement content. -/
theorem C6_no_warnings (p : MixParams)
    (h : spec_max_w_cm_moderate < p.w_c_ratio) :
    calculate_warnings p = [] ∧
    (calculate p).cement = round1 ((calculate p).water / p.w_c_ratio) :=
  ⟨rfl, rfl⟩

/-- C6, witness at p6 (w/c = 0.6 > 0.50). -/
theorem C6_no_warnings_witness :
    calculate_warnings p6 = [] ∧
    (calculate p6).cement = round1 ((calculate p6).water / p6.w_c_ratio) :=
  C6_no_warnings p6 (by norm_num [spec_max_w_cm_moderate, p6, p0])

/-- C7, counterexample: at admixture_pct = 3 the returned water is the
unreduced 185, not 185 scaled by 1 - min(0.15, 3 * 0.05): the source
never applies an admixture water reduction.  (Water at dose 3 does
equal water at dose 10, but only because both are unreduced.) -/
theorem C7_counterexample :
    (calculate p7).water = 185 ∧
    (calculate p7).water ≠ 185 * (1 - min (15/100 : ℚ) (3 * (5/100))) ∧
    (calculate p7).water = (calculate (withAdmixture p7 10)).water := by
  norm_num [calculate_water, water_of, estimate_water_content, withAdmixture,
    round1, halfEven, p7, p0, min_def]

/-- C7, amended: the admixture percentage has no effect on the water
content at all (no reduction, capped or otherwise, is applied); the
admixture enters the result only as the dose cement * admixture_pct /
100. -/
theorem C7_admixture_no_water_effect (p : MixParams) (a b : ℚ) :
    (calculate (withAdmixture p a)).water = (calculate (withAdmixture p b)).water ∧
    (calculate p).admixture =
      round1 ((calculate p).cement * p.admixture_pct / 100) :=
  ⟨rfl, rfl⟩

/-- C8: the calculation is a pure function of the parameter record:
identical records give identical results.  The source calculator reads
nothing but its params dictionary (no clock, randomness or state
surviving a call), which the embedding reflects. -/
theorem C8_deterministic (p q : MixParams) (h : p = q) :
    calculate p = calculate q := by
  rw [h]

/-- C8, witness at the default input. -/
theorem C8_deterministic_witness : calculate p0 = calculate p0 :=
  C8_deterministic p0 p0 rfl

/-- C10: the estimated water content always lies in the interval from
130 to 210; it is exactly 185 when use_slump_for_water is off, and with
the flag on it is 130 + (slump - 25) * 0.8 clamped below at 130 and
above at 210. -/
theorem C10_water_range (p : MixParams) :
    (130 ≤ estimate_water_content p ∧ estimate_water_content p ≤ 210) ∧
    (p.use_slump_for_water = false → estimate_water_content p = 185) ∧
    (p.use_slump_for_water = true → 130 ≤ 130 + (p.slump - 25) * (8/10) →
      130 + (p.slump - 25) * (8/10) ≤ 210 →
      estimate_water_content p = 130 + (p.slump - 25) * (8/10)) ∧
    (p.use_slump_for_water = true → 130 + (p.slump - 25) * (8/10) < 130 →
      estimate_water_content p = 130) ∧
    (p.use_slump_for_water = true → 210 < 130 + (p.slump - 25) * (8/10) →
      estimate_water_content p = 210) := by
  refine ⟨⟨estimate_water_lb p, estimate_water_ub p⟩, ?_, ?_, ?_, ?_⟩
  · intro h
    simp [estimate_water_content, h]
  · intro h h1 h2
    simp only [estimate_water_content, h, if_true]
    rw [min_eq_right h2, max_eq_right h1]
  · intro h h1
    simp only [estimate_water_content, h, if_true]
    rw [min_eq_right (by linarith), max_eq_left (by linarith)]
  · intro h h1
    simp only [estimate_water_content, h, if_true]
    rw [min_eq_left (by linarith)]
    exact max_eq_right (by norm_num)

/-- C10, witness at the default input (flag off) and at p3 (flag on,
slump 25). -/
theorem C10_water_range_witness :
    estimate_water_content p0 = 185 ∧
    estimate_water_content p3 = 130 + (p3.slump - 25) * (8/10) :=
  ⟨(C10_water_range p0).2.1 rfl,
    (C10_water_range p3).2.2.1 rfl (by norm_num [p3, p0]) (by norm_num [p3, p0])⟩

/-- C1, counterexample: at the valid input p1 (volume ratios 0.2 and
0.3) the absolute volumes fall short of one cubic meter by about 0.349,
far beyond 1e-6.  The source has no air-volume term at all; the sum is
short whether one adds no air, the one-percent allowance the spec
describes, or the admixture volume of the source (zero here). -/
theorem C1_counterexample :
    cement_vol_of p1 + water_vol_of p1 + ca_vol_of p1 + fa_vol_of p1 <
      1 - 1/1000000 ∧
    cement_vol_of p1 + water_vol_of p1 + 1/100 + ca_vol_of p1 + fa_vol_of p1 <
      1 - 1/1000000 ∧
    admixture_vol_of p1 = 0 := by
  norm_num [cement_vol_of, water_vol_of, ca_vol_of, fa_vol_of, admixture_vol_of,
    total_agg_vol_of, calculate_aggregate_volumes, cement_of, water_of,
    admixture_of, estimate_water_content, calculate_cement_content,
    calculate_admixture_dose, round1, halfEven, p1, p0]

/-- C1, amended: with the admixture volume in place of the nonexistent
air volume, and provided the fine and coarse volume ratios sum to one,
the absolute volumes of cement, water, admixture, coarse aggregate and
fine aggregate (the latter two before moisture correction) sum to
exactly one cubic meter: the fine-aggregate volume is fa_ratio times
the remaining volume, not the full remainder. -/
theorem C1_closure (p : MixParams) (h : p.fa_ratio + p.ca_ratio = 1) :
    cement_vol_of p + water_vol_of p + admixture_vol_of p +
      ca_vol_of p + fa_vol_of p = 1 := by
  unfold cement_vol_of water_vol_of admixture_vol_of ca_vol_of fa_vol_of
    total_agg_vol_of calculate_aggregate_volumes
  linear_combination (1 - (cement_of p / (p.cement_sg * 1000) +
    water_of p / (p.water_sg * 1000) + admixture_of p / ((21/20) * 1000))) * h

/-- C1, witness at the default input (ratios 0.35 and 0.65). -/
theorem C1_closure_witness :
    cement_vol_of p0 + water_vol_of p0 + admixture_vol_of p0 +
      ca_vol_of p0 + fa_vol_of p0 = 1 :=
  C1_closure p0 (by norm_num [p0])

/-- C2, counterexample: at p2 (w/c = 0.05) the component volumes exceed
one cubic meter, and the calculation does not fail: it returns negative
fine and coarse aggregate masses.  The source has no NegativeVolumeError
and no sign check. -/
theorem C2_counterexample :
    total_agg_vol_of p2 < 0 ∧
    (calculate p2).fine_aggregate < 0 ∧
    (calculate p2).coarse_aggregate < 0 := by
  norm_num [calculate_fa, calculate_ca, fa_ssd_of, ca_ssd_of, total_agg_vol_of,
    calculate_aggregate_volumes, cement_of, water_of, admixture_of,
    estimate_water_content, calculate_cement_content, calculate_admixture_dose,
    round1, halfEven, p2, p0]

/-- C2, amended: when the component volumes exhaust the unit volume
(remaining aggregate volume at most -0.01) and the aggregate parameters
are in their form ranges, the calculation does not fail: it returns a
negative fine-aggregate mass and a negative coarse-aggregate mass. -/
theorem C2_no_error (p : MixParams)
    (htav : total_agg_vol_of p ≤ -(1/100))
    (hfr : 1/5 ≤ p.fa_ratio) (hfs : 12/5 ≤ p.fa_sg)
    (hcr : 3/10 ≤ p.ca_ratio) (hcs : 12/5 ≤ p.ca_sg)
    (hm : 0 ≤ p.moisture_content)
    (hfab : p.fa_abs ≤ 5) (hcab : p.ca_abs ≤ 5) :
    (calculate p).fine_aggregate < 0 ∧ (calculate p).coarse_aggregate < 0 := by
  have htav0 : total_agg_vol_of p ≤ 0 := by linarith
  constructor
  · rw [calculate_fa]
    apply round1_neg
    have hcorr : 19/20 ≤ 1 + (p.moisture_content - p.fa_abs) / 100 := by linarith
    have hK1 : 12/25 ≤ p.fa_ratio * p.fa_sg := by nlinarith
    have hK2 : 456 ≤ p.fa_ratio * p.fa_sg * 1000 *
        (1 + (p.moisture_content - p.fa_abs) / 100) := by nlinarith
    have hrw : fa_ssd_of p * (1 + (p.moisture_content - p.fa_abs) / 100) =
        total_agg_vol_of p * (p.fa_ratio * p.fa_sg * 1000 *
          (1 + (p.moisture_content - p.fa_abs) / 100)) := by
      unfold fa_ssd_of
      ring
    rw [hrw]
    nlinarith
  · rw [calculate_ca]
    apply round1_neg
    have hcorr : 19/20 ≤ 1 + (p.moisture_content - p.ca_abs) / 100 := by linarith
    have hK1 : 18/25 ≤ p.ca_ratio * p.ca_sg := by nlinarith
    have hK2 : 684 ≤ p.ca_ratio * p.ca_sg * 1000 *
        (1 + (p.moisture_content - p.ca_abs) / 100) := by nlinarith
    have hrw : ca_ssd_of p * (1 + (p.moisture_content - p.ca_abs) / 100) =
        total_agg_vol_of p * (p.ca_ratio * p.ca_sg * 1000 *
          (1 + (p.moisture_content - p.ca_abs) / 100)) := by
      unfold ca_ssd_of
      ring
    rw [hrw]
    nlinarith

/-- C2, witness at p2 (w/c = 0.05). -/
theorem C2_no_error_witness :
    (calculate p2).fine_aggregate < 0 ∧ (calculate p2).coarse_aggregate < 0 :=
  C2_no_error p2
    (by norm_num [total_agg_vol_of, calculate_aggregate_volumes, cement_of,
      water_of, admixture_of, estimate_water_content, calculate_cement_content,
      calculate_admixture_dose, round1, halfEven, p2, p0])
    (by norm_num [p2, p0]) (by norm_num [p2, p0]) (by norm_num [p2, p0])
    (by norm_num [p2, p0]) (by norm_num [p2, p0]) (by norm_num [p2, p0])
    (by norm_num [p2, p0])

/-- C9: for every parameter record within the ranges the source form
widgets enforce (lines 95-111), all five numeric result fields are
non-negative.  The remaining aggregate volume stays above 0.34 on these
ranges, and every rounding preserves sign. -/
theorem C9_nonneg (p : MixParams)
    (hsl1 : 25 ≤ p.slump) (hsl2 : p.slump ≤ 200)
    (hw1 : 3/10 ≤ p.w_c_ratio) (hw2 : p.w_c_ratio ≤ 7/10)
    (hcsg1 : 2 ≤ p.cement_sg) (hcsg2 : p.cement_sg ≤ 4)
    (hwsg1 : 9/10 ≤ p.water_sg) (hwsg2 : p.water_sg ≤ 11/10)
    (ha1 : 0 ≤ p.admixture_pct) (ha2 : p.admixture_pct ≤ 10)
    (hfr1 : 1/5 ≤ p.fa_ratio) (hfr2 : p.fa_ratio ≤ 3/5)
    (hfsg1 : 12/5 ≤ p.fa_sg) (hfsg2 : p.fa_sg ≤ 14/5)
    (hfab1 : 0 ≤ p.fa_abs) (hfab2 : p.fa_abs ≤ 5)
    (hcsg3 : 12/5 ≤ p.ca_sg) (hcsg4 : p.ca_sg ≤ 14/5)
    (hcab1 : 0 ≤ p.ca_abs) (hcab2 : p.ca_abs ≤ 5)
    (hm1 : 0 ≤ p.moisture_content) (hm2 : p.moisture_content ≤ 10)
    (hcr1 : 3/10 ≤ p.ca_ratio) (hcr2 : p.ca_ratio ≤ 4/5) :
    0 ≤ (calculate p).water ∧ 0 ≤ (calculate p).cement ∧
    0 ≤ (calculate p).fine_aggregate ∧ 0 ≤ (calculate p).coarse_aggregate ∧
    0 ≤ (calculate p).admixture := by
  have hest1 : 130 ≤ estimate_water_content p := estimate_water_lb p
  have hest2 : estimate_water_content p ≤ 210 := estimate_water_ub p
  have hwat0 : 0 ≤ water_of p := round1_nonneg (by linarith)
  have hwatub : water_of p ≤ 4201/20 := by
    have h := round1_le (estimate_water_content p)
    unfold water_of
    linarith
  have hwcr0 : 0 < p.w_c_ratio := by linarith
  have hcem0 : 0 ≤ cement_of p :=
    round1_nonneg (div_nonneg hwat0 (le_of_lt hwcr0))
  have hcemub : cement_of p ≤ 701 := by
    have h1 := round1_le (calculate_cement_content p (water_of p))
    have h2 : calculate_cement_content p (water_of p) ≤ 4201/6 := by
      unfold calculate_cement_content
      calc water_of p / p.w_c_ratio ≤ (4201/20) / (3/10) :=
            div_le_div₀ (by norm_num) hwatub (by norm_num) hw1
        _ = 4201/6 := by norm_num
    unfold cement_of
    linarith
  have hadm0 : 0 ≤ admixture_of p :=
    round1_nonneg (div_nonneg (mul_nonneg hcem0 ha1) (by norm_num))
  have hadmub : admixture_of p ≤ 71 := by
    have h1 := round1_le (calculate_admixture_dose p (cement_of p))
    have h2 : calculate_admixture_dose p (cement_of p) ≤ 701/10 := by
      unfold calculate_admixture_dose
      have h3 : cement_of p * p.admixture_pct ≤ 701 * 10 :=
        mul_le_mul hcemub ha2 ha1 (by norm_num)
      linarith
    unfold admixture_of
    linarith
  have htav : 0 ≤ total_agg_vol_of p := by
    have hA : cement_of p / (p.cement_sg * 1000) ≤ 701/2000 :=
      div_le_div₀ (by norm_num) hcemub (by norm_num) (by linarith)
    have hB : water_of p / (p.water_sg * 1000) ≤ (4201/20) / 900 :=
      div_le_div₀ (by norm_num) hwatub (by norm_num) (by linarith)
    have hC : admixture_of p / ((21/20) * 1000) ≤ 71/1050 := by
      have he : admixture_of p / ((21/20) * 1000) = admixture_of p / 1050 := by
        norm_num
      rw [he]
      exact div_le_div₀ (by norm_num) hadmub (by norm_num) (by norm_num)
    have hB2 : water_of p / (p.water_sg * 1000) ≤ 4201/18000 := by
      have he : (4201 : ℚ)/20/900 = 4201/18000 := by norm_num
      linarith [hB, he.ge]
    unfold total_agg_vol_of calculate_aggregate_volumes
    linarith
  refine ⟨?_, ?_, ?_, ?_, ?_⟩
  · rw [calculate_water]
    exact hwat0
  · rw [calculate_cement]
    exact hcem0
  · rw [calculate_fa]
    apply round1_nonneg
    have hcorr : 0 ≤ 1 + (p.moisture_content - p.fa_abs) / 100 := by linarith
    have hssd : 0 ≤ fa_ssd_of p := by
      unfold fa_ssd_of
      exact mul_nonneg (mul_nonneg (mul_nonneg (by linarith) htav)
        (by linarith)) (by norm_num)
    exact mul_nonneg hssd hcorr
  · rw [calculate_ca]
    apply round1_nonneg
    have hcorr : 0 ≤ 1 + (p.moisture_content - p.ca_abs) / 100 := by linarith
    have hssd : 0 ≤ ca_ssd_of p := by
      unfold ca_ssd_of
      exact mul_nonneg (mul_nonneg (mul_nonneg (by linarith) htav)
        (by linarith)) (by norm_num)
    exact mul_nonneg hssd hcorr
  · rw [calculate_admixture]
    exact hadm0

/-- C9, witness at the default form input. -/
theorem C9_nonneg_witness :
    0 ≤ (calculate p0).water ∧ 0 ≤ (calculate p0).cement ∧
    0 ≤ (calculate p0).fine_aggregate ∧ 0 ≤ (calculate p0).coarse_aggregate ∧
    0 ≤ (calculate p0).admixture :=
  C9_nonneg p0
    (by norm_num [p0]) (by norm_num [p0]) (by norm_num [p0]) (by norm_num [p0])
    (by norm_num [p0]) (by norm_num [p0]) (by norm_num [p0]) (by norm_num [p0])
    (by norm_num [p0]) (by norm_num [p0]) (by norm_num [p0]) (by norm_num [p0])
    (by norm_num [p0]) (by norm_num [p0]) (by norm_num [p0]) (by norm_num [p0])
    (by norm_num [p0]) (by norm_num [p0]) (by norm_num [p0]) (by norm_num [p0])
    (by norm_num [p0]) (by norm_num [p0]) (by norm_num [p0]) (by norm_num [p0])

end ConcreteMix
